import Mathlib

/-!
Shallow embedding of the client logic of `src/static/visualisation.js`
(geodesic-dome repository): the tessellation cache, the mesh/wireframe/points
construction, the pointer-move highlight state machine, and the click
dispatcher with its response handlers.

Modelling conventions:
* JS numbers that carry vertex coordinates are modelled as `Rat` (claims never
  depend on floating-point rounding); vertex and face indices are `Nat`, and
  indices arriving in a network response are `Int` (JSON integers may be
  negative).
* A colour attribute (`Float32BufferAttribute` of RGB triples, one per vertex)
  is modelled as a `List Color`.  `BufferAttribute.setXYZ i r g b` assigns the
  three components at offset `3*i` of the backing typed array; a JS typed
  array silently ignores writes at out-of-range or negative canonical numeric
  indices, which matches `List.set` (a no-op when the index is out of range)
  together with an explicit guard for negative indices.
* `var x = null` / never-assigned `var x` is modelled as `Option` with
  initial value `none`.
* Scene membership of the three render layers is modelled by one Boolean per
  layer ("the current object of that layer is attached to the scene"):
  `scene.add` sets it, `scene.remove` clears it.
* `geometry.dispose()` releases GPU-side resources and has no effect on the
  client state modelled here.
-/

/-- An RGB colour, one component per channel, as `THREE.Color` stores it
(each channel in `[0,1]`). -/
structure Color where
  r : Rat
  g : Rat
  b : Rat
deriving DecidableEq, Repr

/-- `new THREE.Color("white")`. -/
def white : Color := ⟨1, 1, 1⟩

/-- `new THREE.Color("red")`. -/
def red : Color := ⟨1, 0, 0⟩

/-- `new THREE.Color(0x0080ff)`, the unselected point colour. -/
def pointBlue : Color := ⟨0, 128/255, 1⟩

/-- A MeshSnapshot payload: `{ vertices, indices }` as exchanged with the
service, vertices as triples of numbers, indices as triples of vertex
indices (the code flattens both with `.flat()`, so we keep the nested
shape). -/
structure Snapshot where
  vertices : List (List Rat)
  indices : List (List Nat)
deriving DecidableEq, Repr

/-- The vertex loop of `createGeometry`: walks the flattened coordinate list
three at a time and pushes `v[i]*50, v[i+1]*50, v[i+2]*50`.  An out-of-range
read (possible only for a ragged payload, where JS would yield `NaN`) is
modelled as `0`; every payload in this development has length a multiple
of 3. -/
def scalePositions : List Rat → List Rat
  | x :: y :: z :: rest => x * 50 :: y * 50 :: z * 50 :: scalePositions rest
  | [x, y] => [x * 50, y * 50, 0]
  | [x] => [x * 50, 0, 0]
  | [] => []

/-- The colour pushes of the same loop: one `white` RGB triple per
three-coordinate group. -/
def whiteColors : List Rat → List Color
  | _ :: _ :: _ :: rest => white :: whiteColors rest
  | [_, _] => [white]
  | [_] => [white]
  | [] => []

/-- The index loop of `createGeometry`: walks the flattened index list three
at a time and pushes `f[i], f[i+1], f[i+2]` (the identity on a list of length
a multiple of 3; ragged tails padded with `0` where JS yields
`undefined`). -/
def indexTriples : List Nat → List Nat
  | a :: b :: c :: rest => a :: b :: c :: indexTriples rest
  | [a, b] => [a, b, 0]
  | [a] => [a, 0, 0]
  | [] => []

/-- A `THREE.BufferGeometry` as the client uses it: an index buffer, a
position attribute (flat, pre-scaled), and a colour attribute (one RGB
triple per vertex). -/
structure BufferGeometry where
  index : List Nat
  position : List Rat
  color : List Color
deriving DecidableEq, Repr

/-- `createGeometry(data)`: flattens `data.vertices` and `data.indices`,
scales each coordinate by 50, initialises the colour attribute to uniform
white. -/
def createGeometry (data : Snapshot) : BufferGeometry :=
  let v := data.vertices.flatten
  let f := data.indices.flatten
  { index := indexTriples f
    position := scalePositions v
    color := whiteColors v }

/-- A `THREE.Mesh` (the material is shared and irrelevant to the claims). -/
structure Mesh where
  geometry : BufferGeometry
deriving DecidableEq, Repr

/-- `createMesh(data)`. -/
def createMesh (data : Snapshot) : Mesh :=
  { geometry := createGeometry data }

/-- `createLine(mesh)`: a `LineSegments` whose `WireframeGeometry` is derived
from the mesh's geometry; we record the source geometry. -/
structure LineSegments where
  sourceGeometry : BufferGeometry
deriving DecidableEq, Repr

/-- `createLine(mesh)`. -/
def createLine (m : Mesh) : LineSegments :=
  { sourceGeometry := m.geometry }

/-- A `THREE.Points` object: positions copied from the mesh, its own colour
attribute, and the material's point `size`. -/
structure Points where
  position : List Rat
  color : List Color
  size : Rat
deriving DecidableEq, Repr

/-- `createPoints(mesh)`: one point per vertex of the mesh's position
attribute (`count = position.length / 3`), colour attribute initialised to
uniform `0x0080ff`, material size 2. -/
def createPoints (m : Mesh) : Points :=
  { position := m.geometry.position
    color := List.replicate (m.geometry.position.length / 3) pointBlue
    size := 2 }

/-- The GUI mode selector: `["view", "tessellate", "search", "store",
"retrieve"]`. -/
inductive Mode where
  | view
  | tessellate
  | search
  | store
  | retrieve
deriving DecidableEq, Repr

/-- The `params` object of the GUI (line 146): the fields the dispatcher and
the response handlers read. -/
structure Params where
  mode : Mode
  storeValue : String
  showEdges : Bool
  showFaces : Bool
  showPoints : Bool
  domeColor : Nat
  pointSize : Rat
  searchDistance : Nat
deriving DecidableEq, Repr

/-- The `face` field of a raycaster intersection with a `Mesh`: the three
vertex indices of the intersected triangle. -/
structure Face3 where
  a : Nat
  b : Nat
  c : Nat
deriving DecidableEq, Repr

/-- The part of a mesh intersection record the code reads: `.face` (in
`highlightFace`) and `.faceIndex` (in `onClick`). -/
structure FaceRec where
  face : Face3
  faceIndex : Nat
deriving DecidableEq, Repr

/-- The part of a points intersection record the code reads: `.index`. -/
structure PointRec where
  index : Nat
deriving DecidableEq, Repr

/-- The nearest intersection returned by
`raycaster.intersectObjects(scene.children)`, classified the way the
handlers classify it by `objects[0].object.type`: a hit on the surface mesh,
a hit on the point cloud, or a hit on an object of any other type (for
example the `LineSegments` wireframe layer).  `Option.none` stands for an
empty intersection list. -/
inductive Hit where
  | mesh (face : Face3) (faceIndex : Nat)
  | points (index : Nat)
  | other
deriving DecidableEq, Repr

/-- Which colour attribute a highlight writes to. -/
inductive Layer where
  | facelayer
  | pointlayer
deriving DecidableEq, Repr

/-- One `colorAttribute.setXYZ(slot, c.r, c.g, c.b)` call: the layer written,
the vertex slot, and the colour. -/
structure ColorWrite where
  layer : Layer
  slot : Nat
  color : Color
deriving DecidableEq, Repr

/-- The module-level mutable state of `visualisation.js` that the claims are
about: the tessellation cache (lines 58-59, initially `null`), the three
render-layer objects and their scene membership, the two hot-pick
references (lines 22-23, initially undefined), and the GUI `params`. -/
structure ClientState where
  cacheVertices : Option (List (List Rat))
  cacheIndices : Option (List (List Nat))
  mesh : Mesh
  line : LineSegments
  points : Points
  meshInScene : Bool
  lineInScene : Bool
  pointsInScene : Bool
  intersectedFace : Option FaceRec
  intersectedPoint : Option PointRec
  params : Params
deriving DecidableEq, Repr

/-- The initial `params` object (lines 146-155). -/
def initParams : Params :=
  { mode := Mode.view
    storeValue := "value"
    showEdges := false
    showFaces := true
    showPoints := false
    domeColor := 0xffa64d
    pointSize := 2
    searchDistance := 0 }

/-- The module initialisation, parameterised by the `icojson.js` payload
`data0` (that file is not part of the sources; the shape is a MeshSnapshot):
cache `null`, mesh/line/points built from `data0`, only the mesh attached to
the scene (`scene.add(mesh)`, line 95), both hot references unset. -/
def startState (data0 : Snapshot) : ClientState :=
  { cacheVertices := none
    cacheIndices := none
    mesh := createMesh data0
    line := createLine (createMesh data0)
    points := createPoints (createMesh data0)
    meshInScene := true
    lineInScene := false
    pointsInScene := false
    intersectedFace := none
    intersectedPoint := none
    params := initParams }

/-- One outbound HTTP request of `onClick`, identified by endpoint with the
fields of its JSON body.  `faceselective` carries the cache contents, which
are `null` (`none`) until a selective response has been accepted. -/
inductive Request where
  | faceselective (index : Nat) (vertices : Option (List (List Rat)))
      (indices : Option (List (List Nat)))
  | vertexselective (index : Nat) (distance : Nat)
  | search (index : Nat) (distance : Nat)
  | store (index : Nat) (value : String)
  | retrieve (index : Nat)
deriving DecidableEq, Repr

/-- `onClick` (lines 355-471), restricted to what it sends: resolves the
nearest intersection, branches on its `.object.type` and on `params.mode`,
and issues at most one request.  A nearest hit that is neither a `Mesh` nor
a `Points` falls through both branches and sends nothing. -/
def onClick (s : ClientState) (e : Option Hit) : Option Request :=
  match e with
  | none => none
  | some (Hit.mesh _ faceIndex) =>
      if s.params.mode ≠ Mode.tessellate then none
      else some (Request.faceselective faceIndex s.cacheVertices s.cacheIndices)
  | some (Hit.points index) =>
      match s.params.mode with
      | Mode.tessellate => some (Request.vertexselective index s.params.searchDistance)
      | Mode.search => some (Request.search index s.params.searchDistance)
      | Mode.retrieve => some (Request.retrieve index)
      | Mode.store => some (Request.store index s.params.storeValue)
      | Mode.view => none
  | some Hit.other => none

/-- The mesh-replacement block shared verbatim by the four mesh-returning
response handlers (`tesselate all` lines 170-184, `reset dome` lines
245-259, `faceselective` lines 380-392, `vertexselective` lines 410-422):
dispose the three old geometries (GPU release, no client state), remove the
three layers from the scene, rebuild mesh/line/points from the response,
`scene.add(mesh)` unconditionally, re-apply the configured point size, and
re-attach line/points only when `showEdges` / `showPoints` is set.  The hot
references `intersectedFace` / `intersectedPoint` are not touched. -/
def rebuildFromSnapshot (s : ClientState) (data : Snapshot) : ClientState :=
  let s1 := { s with meshInScene := false, lineInScene := false, pointsInScene := false }
  let mesh := createMesh data
  let line := createLine mesh
  let points := createPoints mesh
  let s2 := { s1 with mesh := mesh, line := line, points := points }
  let s3 := { s2 with meshInScene := true }
  let s4 := { s3 with points := { s3.points with size := s3.params.pointSize } }
  let s5 := if s4.params.showEdges then { s4 with lineInScene := true } else s4
  if s5.params.showPoints then { s5 with pointsInScene := true } else s5

/-- The `/faceselective` response handler (lines 377-393): store the
response into the cache, then run the mesh-replacement block. -/
def applyFaceselectiveResponse (s : ClientState) (data : Snapshot) : ClientState :=
  rebuildFromSnapshot
    { s with cacheVertices := some data.vertices, cacheIndices := some data.indices }
    data

/-- The `/vertexselective` response handler (lines 407-423): identical to the
`/faceselective` handler. -/
def applyVertexselectiveResponse (s : ClientState) (data : Snapshot) : ClientState :=
  rebuildFromSnapshot
    { s with cacheVertices := some data.vertices, cacheIndices := some data.indices }
    data

/-- The `tesselate all` response handler (lines 170-184): only the
mesh-replacement block — the cache is not written. -/
def applyTesselateAllResponse (s : ClientState) (data : Snapshot) : ClientState :=
  rebuildFromSnapshot s data

/-- The `reset dome` response handler (lines 245-259): only the
mesh-replacement block — the cache is not written. -/
def applyResetDomeResponse (s : ClientState) (data : Snapshot) : ClientState :=
  rebuildFromSnapshot s data

/-- `highlightPointNeighbour(index, color)` (lines 296-303):
`colorAttribute.setXYZ(index, ...)` on the colour attribute of the current
`points` object.  The index comes from a JSON response, so it may be any
integer; a typed-array write at a negative or out-of-range index is silently
ignored (`List.set` is a no-op out of range). -/
def highlightPointNeighbour (colors : List Color) (index : Int) (c : Color) : List Color :=
  if index < 0 then colors else colors.set index.toNat c

/-- The `/search` response handler (lines 435-439): `for (let i = 0; i <
data.vertices.length; i++) highlightPointNeighbour(data.vertices[i], red)` —
a left fold of red writes over the response's vertex list, on the current
point overlay.  Nothing else is touched. -/
def applySearchResponse (s : ClientState) (respVertices : List Int) : ClientState :=
  { s with points := { s.points with
      color := respVertices.foldl (fun cs i => highlightPointNeighbour cs i red) s.points.color } }

/-- State paired with the trace of `setXYZ` colour writes performed so far
while handling one event (`needsUpdate` marks each write for GPU upload, so
a write is observable even when it restores the previous value). -/
def Traced : Type := ClientState × List ColorWrite

/-- One `colorAttribute.setXYZ` call on the colour attribute of the current
surface mesh's geometry: update the slot and append the write to the
trace. -/
def emitFaceWrite (sw : Traced) (slot : Nat) (c : Color) : Traced :=
  let s := sw.1
  ({ s with mesh := { s.mesh with geometry := { s.mesh.geometry with
       color := s.mesh.geometry.color.set slot c } } },
   sw.2 ++ [{ layer := Layer.facelayer, slot := slot, color := c }])

/-- One `colorAttribute.setXYZ` call on the colour attribute of the current
points object. -/
def emitPointWrite (sw : Traced) (slot : Nat) (c : Color) : Traced :=
  let s := sw.1
  ({ s with points := { s.points with color := s.points.color.set slot c } },
   sw.2 ++ [{ layer := Layer.pointlayer, slot := slot, color := c }])

/-- `highlightFace(color)` (lines 272-282): reads `intersectedFace.face` and
writes the colour to slots `face.a`, `face.b`, `face.c` of the colour
attribute of `intersectedFace.object.geometry`.  In a run of pointer-move
events the stored record always refers to the current surface mesh, so the
writes land on the current mesh overlay. -/
def highlightFace (sw : Traced) (hot : FaceRec) (c : Color) : Traced :=
  emitFaceWrite (emitFaceWrite (emitFaceWrite sw hot.face.a c) hot.face.b c) hot.face.c c

/-- `highlightPoint(color)` (lines 285-293): reads `intersectedPoint.index`
and writes the colour to that slot of the colour attribute of
`intersectedPoint.object.geometry` (the current points object). -/
def highlightPoint (sw : Traced) (hot : PointRec) (c : Color) : Traced :=
  emitPointWrite sw hot.index c

/-- `onPointerMove` (lines 306-352).  The branch guards
`intersectedFace != objects[0].object` and
`intersectedPoint != objects[0].object` compare the stored value — `null` or
a previously stored intersection *record* — against the intersected
`Object3D`; under JS loose equality `null != obj` is true and a record and
an `Object3D` are distinct heap objects, so both guards are always true and
the guarded blocks always run.  Inside the mesh block the order is: repaint
any hot face white, repaint any hot point to `0x0080ff`, store the new
record, paint the new face red — without nulling `intersectedPoint`; the
points block is symmetric without nulling `intersectedFace`.  Only the
empty-intersection branch nulls both references, and a nearest hit of any
other object type matches neither branch and does nothing. -/
def onPointerMove (s : ClientState) (e : Option Hit) : Traced :=
  match e with
  | some (Hit.mesh face faceIndex) =>
      let sw : Traced := (s, [])
      let sw := match s.intersectedFace with
        | some h => highlightFace sw h white
        | none => sw
      let sw := match s.intersectedPoint with
        | some p => highlightPoint sw p pointBlue
        | none => sw
      let rec2 : FaceRec := { face := face, faceIndex := faceIndex }
      let sw := ({ sw.1 with intersectedFace := some rec2 }, sw.2)
      highlightFace sw rec2 red
  | some (Hit.points index) =>
      let sw : Traced := (s, [])
      let sw := match s.intersectedPoint with
        | some p => highlightPoint sw p pointBlue
        | none => sw
      let sw := match s.intersectedFace with
        | some h => highlightFace sw h white
        | none => sw
      let rec2 : PointRec := { index := index }
      let sw := ({ sw.1 with intersectedPoint := some rec2 }, sw.2)
      highlightPoint sw rec2 red
  | some Hit.other => (s, [])
  | none =>
      let sw : Traced := (s, [])
      let sw := match s.intersectedFace with
        | some h => highlightFace sw h white
        | none => sw
      let sw := match s.intersectedPoint with
        | some p => highlightPoint sw p pointBlue
        | none => sw
      ({ sw.1 with intersectedFace := none, intersectedPoint := none }, sw.2)

/-- `highlightPointNeighbour` preserves the length of the overlay. -/
theorem highlightPointNeighbour_length (cs : List Color) (i : Int) (c : Color) :
    (highlightPointNeighbour cs i c).length = cs.length := by
  unfold highlightPointNeighbour
  split
  · rfl
  · exact List.length_set ..

/-- The fold of red writes of the `/search` handler preserves the length of
the overlay. -/
theorem foldl_highlight_length (L : List Int) (cs : List Color) :
    (L.foldl (fun a i => highlightPointNeighbour a i red) cs).length = cs.length := by
  induction L generalizing cs with
  | nil => rfl
  | cons i tl ih =>
      rw [List.foldl_cons, ih, highlightPointNeighbour_length]

/-- Slot-wise characterisation of the fold of red writes of the `/search`
handler: an in-range slot named by the response ends red, any other
in-range slot keeps its colour. -/
theorem foldl_highlight_getElem (L : List Int) (cs : List Color) (j : Nat)
    (hj : j < cs.length) :
    (L.foldl (fun a i => highlightPointNeighbour a i red) cs)[j]? =
      if (j : Int) ∈ L then some red else cs[j]? := by
  induction L generalizing cs with
  | nil => simp
  | cons i tl ih =>
      rw [List.foldl_cons]
      have hj2 : j < (highlightPointNeighbour cs i red).length := by
        rw [highlightPointNeighbour_length]; exact hj
      rw [ih (highlightPointNeighbour cs i red) hj2]
      by_cases hmem : (j : Int) ∈ tl
      · simp [hmem]
      · by_cases hij : i = (j : Int)
        · have h1 : highlightPointNeighbour cs i red = cs.set j red := by
            unfold highlightPointNeighbour
            rw [if_neg (by omega : ¬ i < 0)]
            have htn : i.toNat = j := by omega
            rw [htn]
          have h2 : (j : Int) ∈ i :: tl := by
            rw [hij]
            exact List.mem_cons_self _ _
          rw [if_neg hmem, if_pos h2, h1, List.getElem?_set_self]
          simp [hj]
        · have h2 : ¬ ((j : Int) ∈ i :: tl) := by
            simp only [List.mem_cons]
            push_neg
            exact ⟨fun h => hij h.symm, hmem⟩
          rw [if_neg hmem, if_neg h2]
          unfold highlightPointNeighbour
          by_cases hneg : i < 0
          · rw [if_pos hneg]
          · rw [if_neg hneg]
            exact List.getElem?_set_ne (by omega)

/-- A tiny MeshSnapshot: one triangle. -/
def exSnapshot : Snapshot :=
  { vertices := [[1, 0, 0], [0, 1, 0], [0, 0, 1]], indices := [[0, 1, 2]] }

/-- A second, different MeshSnapshot: two triangles on four vertices. -/
def exSnapshot2 : Snapshot :=
  { vertices := [[1, 0, 0], [0, 1, 0], [0, 0, 1], [1, 1, 0]],
    indices := [[0, 1, 2], [0, 1, 3]] }

/-- A concrete client state as produced by module initialisation on
`exSnapshot`. -/
def exState : ClientState := startState exSnapshot

/-- `exState` after one pointer-move whose nearest hit is the surface mesh:
the face `(0,1,2)` (face index 0) is hot. -/
def exFaceHotState : ClientState :=
  (onPointerMove exState (some (Hit.mesh { a := 0, b := 1, c := 2 } 0))).1

/-- Field-by-field behaviour of the shared mesh-replacement block: the three
layers are rebuilt from the response, the new mesh is attached
unconditionally, line/points attachment follows `showEdges` / `showPoints`,
the configured point size is applied, and the cache, the hot references and
`params` are untouched. -/
theorem rebuildFromSnapshot_spec (s : ClientState) (d : Snapshot) :
    (rebuildFromSnapshot s d).mesh = createMesh d ∧
    (rebuildFromSnapshot s d).line = createLine (createMesh d) ∧
    (rebuildFromSnapshot s d).points.position = (createPoints (createMesh d)).position ∧
    (rebuildFromSnapshot s d).points.color = (createPoints (createMesh d)).color ∧
    (rebuildFromSnapshot s d).points.size = s.params.pointSize ∧
    (rebuildFromSnapshot s d).meshInScene = true ∧
    (rebuildFromSnapshot s d).lineInScene = s.params.showEdges ∧
    (rebuildFromSnapshot s d).pointsInScene = s.params.showPoints ∧
    (rebuildFromSnapshot s d).cacheVertices = s.cacheVertices ∧
    (rebuildFromSnapshot s d).cacheIndices = s.cacheIndices ∧
    (rebuildFromSnapshot s d).intersectedFace = s.intersectedFace ∧
    (rebuildFromSnapshot s d).intersectedPoint = s.intersectedPoint ∧
    (rebuildFromSnapshot s d).params = s.params := by
  unfold rebuildFromSnapshot
  by_cases he : s.params.showEdges <;> by_cases hp : s.params.showPoints <;>
    simp [he, hp]

/-- A MeshSnapshot with ten vertices, large enough for the search scenario
of the spec (response indices 2, 5, 9). -/
def exSnapshot10 : Snapshot :=
  { vertices := [[1, 0, 0], [0, 1, 0], [0, 0, 1], [1, 1, 0], [1, 0, 1],
                 [0, 1, 1], [2, 0, 0], [0, 2, 0], [0, 0, 2], [2, 2, 0]],
    indices := [[0, 1, 2], [3, 4, 5], [6, 7, 8]] }

/-- A state in `search` mode with distance 3 over the ten-vertex dome. -/
def exSearchState : ClientState :=
  { startState exSnapshot10 with
      params := { initParams with mode := Mode.search, searchDistance := 3 } }

/-- A state in `tessellate` mode whose cache already holds a snapshot. -/
def exTessState : ClientState :=
  { exState with
      cacheVertices := some exSnapshot.vertices
      cacheIndices := some exSnapshot.indices
      params := { initParams with mode := Mode.tessellate } }

/-- `exState` after one pointer-move whose nearest hit is the point cloud:
point 0 is hot. -/
def exPointHotState : ClientState :=
  (onPointerMove exState (some (Hit.points 0))).1

/-- Claim C1 as stated is false on the code: after a pointer-move over a
point followed by a pointer-move over a face, *both* `intersectedFace` and
`intersectedPoint` are non-null — the mesh branch of `onPointerMove`
repaints the hot point but never nulls `intersectedPoint`. -/
theorem C1_counterexample :
    ((onPointerMove (onPointerMove exState (some (Hit.points 0))).1
        (some (Hit.mesh { a := 0, b := 1, c := 2 } 0))).1.intersectedFace ≠ none) ∧
    ((onPointerMove (onPointerMove exState (some (Hit.points 0))).1
        (some (Hit.mesh { a := 0, b := 1, c := 2 } 0))).1.intersectedPoint ≠ none) := by
  decide

/-- Claim C1, amended: a pointer-move transition that makes a face hot
repaints any hot point to the unselected colour but does not clear the
hot-point reference, and symmetrically a transition that makes a point hot
repaints any hot face unselected without clearing the hot-face reference;
both references can therefore be non-null simultaneously. -/
theorem C1_amended (s : ClientState) :
    (∀ p f k, s.intersectedPoint = some p →
      (onPointerMove s (some (Hit.mesh f k))).1.intersectedFace
          = some { face := f, faceIndex := k } ∧
      (onPointerMove s (some (Hit.mesh f k))).1.intersectedPoint = some p ∧
      (onPointerMove s (some (Hit.mesh f k))).1.points.color
          = s.points.color.set p.index pointBlue) ∧
    (∀ fr i, s.intersectedFace = some fr →
      (onPointerMove s (some (Hit.points i))).1.intersectedPoint
          = some { index := i } ∧
      (onPointerMove s (some (Hit.points i))).1.intersectedFace = some fr ∧
      (onPointerMove s (some (Hit.points i))).1.mesh.geometry.color
          = ((s.mesh.geometry.color.set fr.face.a white).set fr.face.b
              white).set fr.face.c white) := by
  constructor
  · intro p f k hp
    cases hf : s.intersectedFace <;>
      simp [onPointerMove, hp, hf, highlightFace, highlightPoint,
        emitFaceWrite, emitPointWrite]
  · intro fr i hf
    cases hp : s.intersectedPoint <;>
      simp [onPointerMove, hp, hf, highlightFace, highlightPoint,
        emitFaceWrite, emitPointWrite]

/-- Witness for `C1_amended` at a concrete state: point 0 is hot, then the
face `(0,1,2)` is intersected. -/
theorem C1_amended_witness :
    (onPointerMove exPointHotState (some (Hit.mesh { a := 0, b := 1, c := 2 } 0))).1.intersectedFace
        = some { face := { a := 0, b := 1, c := 2 }, faceIndex := 0 } ∧
    (onPointerMove exPointHotState (some (Hit.mesh { a := 0, b := 1, c := 2 } 0))).1.intersectedPoint
        = some { index := 0 } ∧
    (onPointerMove exPointHotState (some (Hit.mesh { a := 0, b := 1, c := 2 } 0))).1.points.color
        = exPointHotState.points.color.set 0 pointBlue :=
  (C1_amended exPointHotState).1 { index := 0 } { a := 0, b := 1, c := 2 } 0 rfl

/-- Claim C5 as stated is false on the code: with face `(0,1,2)` already hot,
a pointer-move whose nearest hit is that same face still performs colour
writes — the guard `intersectedFace != objects[0].object` compares the
stored intersection record against the `Mesh` object and is therefore always
true, so the face is repainted white and then red. -/
theorem C5_counterexample :
    (onPointerMove exFaceHotState (some (Hit.mesh { a := 0, b := 1, c := 2 } 0))).2 ≠ [] := by
  decide

/-- Claim C5, amended: a pointer-move whose nearest hit is the face that is
already hot is not write-free — the handler repaints the face, writing the
unselected colour and then the selected colour to its three vertex slots (in
that order); the hot-face reference keeps the same face and the slots end
selected. -/
theorem C5_amended (s : ClientState) (f : Face3) (k : Nat)
    (hf : s.intersectedFace = some { face := f, faceIndex := k })
    (hp : s.intersectedPoint = none) :
    (onPointerMove s (some (Hit.mesh f k))).2 =
      [{ layer := Layer.facelayer, slot := f.a, color := white },
       { layer := Layer.facelayer, slot := f.b, color := white },
       { layer := Layer.facelayer, slot := f.c, color := white },
       { layer := Layer.facelayer, slot := f.a, color := red },
       { layer := Layer.facelayer, slot := f.b, color := red },
       { layer := Layer.facelayer, slot := f.c, color := red }] ∧
    (onPointerMove s (some (Hit.mesh f k))).1.intersectedFace
        = some { face := f, faceIndex := k } ∧
    (onPointerMove s (some (Hit.mesh f k))).1.mesh.geometry.color
        = ((((((s.mesh.geometry.color.set f.a white).set f.b white).set f.c
            white).set f.a red).set f.b red).set f.c red) := by
  simp [onPointerMove, hf, hp, highlightFace, highlightPoint,
    emitFaceWrite, emitPointWrite]

/-- Witness for `C5_amended`: the hot face `(0,1,2)` of `exFaceHotState` is
intersected again. -/
theorem C5_amended_witness :
    (onPointerMove exFaceHotState (some (Hit.mesh { a := 0, b := 1, c := 2 } 0))).2 =
      [{ layer := Layer.facelayer, slot := 0, color := white },
       { layer := Layer.facelayer, slot := 1, color := white },
       { layer := Layer.facelayer, slot := 2, color := white },
       { layer := Layer.facelayer, slot := 0, color := red },
       { layer := Layer.facelayer, slot := 1, color := red },
       { layer := Layer.facelayer, slot := 2, color := red }] ∧
    (onPointerMove exFaceHotState (some (Hit.mesh { a := 0, b := 1, c := 2 } 0))).1.intersectedFace
        = some { face := { a := 0, b := 1, c := 2 }, faceIndex := 0 } ∧
    (onPointerMove exFaceHotState (some (Hit.mesh { a := 0, b := 1, c := 2 } 0))).1.mesh.geometry.color
        = ((((((exFaceHotState.mesh.geometry.color.set 0 white).set 1
            white).set 2 white).set 0 red).set 1 red).set 2 red) :=
  C5_amended exFaceHotState { a := 0, b := 1, c := 2 } 0 rfl rfl

/-- Claim C6 as stated is false on the code: with a hot face, a pointer-move
whose nearest hit is an object of another type (the wireframe line layer)
leaves the hot-face reference set — it does not clear it the way a
no-intersection event would. -/
theorem C6_counterexample :
    (onPointerMove exFaceHotState (some Hit.other)).1.intersectedFace ≠ none := by
  decide

/-- Claim C6, amended: a pointer-move whose nearest intersected object is
neither the surface mesh nor the point cloud matches neither branch of the
handler and is a complete no-op — no repaint, no reference change — rather
than being treated like a no-intersection event. -/
theorem C6_amended (s : ClientState) :
    onPointerMove s (some Hit.other) = (s, []) := rfl

/-- Claim C2 as stated is false on the code: after a `/faceselective`
response (snapshot `exSnapshot`) followed by a `tesselate all` response
(snapshot `exSnapshot2`), the cache still holds `exSnapshot`'s vertices —
the bulk handlers rebuild the mesh but never write the cache, so the cache
does not reflect the last accepted MeshSnapshot. -/
theorem C2_counterexample :
    (applyTesselateAllResponse (applyFaceselectiveResponse exState exSnapshot)
        exSnapshot2).cacheVertices ≠ some exSnapshot2.vertices := by
  decide

/-- Claim C2, amended: only the tessellate-mode selective responses
(`/faceselective`, `/vertexselective`) update the TessellationCache, which
then equals exactly that response's vertices and indices; the mode-independent
`tesselate all` and `reset dome` bulk responses rebuild the mesh but leave
the cache unchanged. -/
theorem C2_amended (s : ClientState) (d : Snapshot) :
    (applyFaceselectiveResponse s d).cacheVertices = some d.vertices ∧
    (applyFaceselectiveResponse s d).cacheIndices = some d.indices ∧
    (applyVertexselectiveResponse s d).cacheVertices = some d.vertices ∧
    (applyVertexselectiveResponse s d).cacheIndices = some d.indices ∧
    (applyTesselateAllResponse s d).cacheVertices = s.cacheVertices ∧
    (applyTesselateAllResponse s d).cacheIndices = s.cacheIndices ∧
    (applyResetDomeResponse s d).cacheVertices = s.cacheVertices ∧
    (applyResetDomeResponse s d).cacheIndices = s.cacheIndices := by
  have h1 := rebuildFromSnapshot_spec
    { s with cacheVertices := some d.vertices, cacheIndices := some d.indices } d
  have h2 := rebuildFromSnapshot_spec s d
  exact ⟨h1.2.2.2.2.2.2.2.2.1, h1.2.2.2.2.2.2.2.2.2.1,
    h1.2.2.2.2.2.2.2.2.1, h1.2.2.2.2.2.2.2.2.2.1,
    h2.2.2.2.2.2.2.2.2.1, h2.2.2.2.2.2.2.2.2.2.1,
    h2.2.2.2.2.2.2.2.2.1, h2.2.2.2.2.2.2.2.2.2.1⟩

/-- Claim C3 (confirmed): a click on a face in `tessellate` mode with cache
`{V, I}` issues exactly the request `{index: clickedFaceIndex, vertices: V,
indices: I}` to `/faceselective`, and applying the response `{V2, I2}` makes
the cache `{V2, I2}` and rebuilds the surface mesh, the wireframe and the
point cloud from `{V2, I2}`. -/
theorem C3_theorem (s : ClientState) (V : List (List Rat)) (I : List (List Nat))
    (f : Face3) (k : Nat) (d : Snapshot)
    (hm : s.params.mode = Mode.tessellate)
    (hv : s.cacheVertices = some V) (hi : s.cacheIndices = some I) :
    onClick s (some (Hit.mesh f k)) = some (Request.faceselective k (some V) (some I)) ∧
    (applyFaceselectiveResponse s d).cacheVertices = some d.vertices ∧
    (applyFaceselectiveResponse s d).cacheIndices = some d.indices ∧
    (applyFaceselectiveResponse s d).mesh = createMesh d ∧
    (applyFaceselectiveResponse s d).line = createLine (createMesh d) ∧
    (applyFaceselectiveResponse s d).points.position
        = (createPoints (createMesh d)).position ∧
    (applyFaceselectiveResponse s d).points.color
        = (createPoints (createMesh d)).color := by
  have h := rebuildFromSnapshot_spec
    { s with cacheVertices := some d.vertices, cacheIndices := some d.indices } d
  refine ⟨?_, h.2.2.2.2.2.2.2.2.1, h.2.2.2.2.2.2.2.2.2.1, h.1, h.2.1,
    h.2.2.1, h.2.2.2.1⟩
  simp [onClick, hm, hv, hi]

/-- Witness for `C3_theorem`: `exTessState` (tessellate mode, cache holding
`exSnapshot`), a click on face 0, and the response `exSnapshot2`. -/
theorem C3_witness :
    onClick exTessState (some (Hit.mesh { a := 0, b := 1, c := 2 } 0))
        = some (Request.faceselective 0 (some exSnapshot.vertices)
            (some exSnapshot.indices)) ∧
    (applyFaceselectiveResponse exTessState exSnapshot2).cacheVertices
        = some exSnapshot2.vertices ∧
    (applyFaceselectiveResponse exTessState exSnapshot2).cacheIndices
        = some exSnapshot2.indices ∧
    (applyFaceselectiveResponse exTessState exSnapshot2).mesh = createMesh exSnapshot2 ∧
    (applyFaceselectiveResponse exTessState exSnapshot2).line
        = createLine (createMesh exSnapshot2) ∧
    (applyFaceselectiveResponse exTessState exSnapshot2).points.position
        = (createPoints (createMesh exSnapshot2)).position ∧
    (applyFaceselectiveResponse exTessState exSnapshot2).points.color
        = (createPoints (createMesh exSnapshot2)).color :=
  C3_theorem exTessState exSnapshot.vertices exSnapshot.indices
    { a := 0, b := 1, c := 2 } 0 exSnapshot2 rfl rfl rfl

/-- Claim C4 as stated is false on the code: a `/faceselective` response
replaces the MeshBuffer while `exFaceHotState`'s hot-face reference is set,
and the reference is still set afterwards — none of the mesh-returning
handlers clears `intersectedFace` or `intersectedPoint`. -/
theorem C4_counterexample :
    (applyFaceselectiveResponse exFaceHotState exSnapshot2).intersectedFace ≠ none := by
  decide

/-- Claim C4, amended: the mesh-replacement handlers (selective tessellation,
`tesselate all`, `reset dome`) leave the PickState untouched —
`intersectedFace` and `intersectedPoint` keep whatever (possibly stale)
values they had before the replacement. -/
theorem C4_amended (s : ClientState) (d : Snapshot) :
    (applyFaceselectiveResponse s d).intersectedFace = s.intersectedFace ∧
    (applyFaceselectiveResponse s d).intersectedPoint = s.intersectedPoint ∧
    (applyVertexselectiveResponse s d).intersectedFace = s.intersectedFace ∧
    (applyVertexselectiveResponse s d).intersectedPoint = s.intersectedPoint ∧
    (applyTesselateAllResponse s d).intersectedFace = s.intersectedFace ∧
    (applyTesselateAllResponse s d).intersectedPoint = s.intersectedPoint ∧
    (applyResetDomeResponse s d).intersectedFace = s.intersectedFace ∧
    (applyResetDomeResponse s d).intersectedPoint = s.intersectedPoint := by
  have h1 := rebuildFromSnapshot_spec
    { s with cacheVertices := some d.vertices, cacheIndices := some d.indices } d
  have h2 := rebuildFromSnapshot_spec s d
  exact ⟨h1.2.2.2.2.2.2.2.2.2.2.1, h1.2.2.2.2.2.2.2.2.2.2.2.1,
    h1.2.2.2.2.2.2.2.2.2.2.1, h1.2.2.2.2.2.2.2.2.2.2.2.1,
    h2.2.2.2.2.2.2.2.2.2.2.1, h2.2.2.2.2.2.2.2.2.2.2.2.1,
    h2.2.2.2.2.2.2.2.2.2.2.1, h2.2.2.2.2.2.2.2.2.2.2.2.1⟩

/-- Claim C7 as stated is false on the code: before any tessellation response
has been accepted the cache variables still hold their initial `null`, so
the first tessellate-mode face click sends `{index: 0, vertices: null,
indices: null}` — not a default MeshSnapshot such as the startup dome
payload. -/
theorem C7_counterexample :
    onClick { startState exSnapshot with
        params := { initParams with mode := Mode.tessellate } }
      (some (Hit.mesh { a := 0, b := 1, c := 2 } 0))
      = some (Request.faceselective 0 none none) ∧
    onClick { startState exSnapshot with
        params := { initParams with mode := Mode.tessellate } }
      (some (Hit.mesh { a := 0, b := 1, c := 2 } 0))
      ≠ some (Request.faceselective 0 (some exSnapshot.vertices)
          (some exSnapshot.indices)) := by
  constructor
  · rfl
  · decide

/-- Claim C7, amended: before any tessellation response has been accepted the
TessellationCache is `null`/`null` (lines 58-59), and the first
tessellate-mode face click sends a body whose `vertices` and `indices`
fields are `null`. -/
theorem C7_amended (d0 : Snapshot) (f : Face3) (k : Nat) (p : Params) :
    (startState d0).cacheVertices = none ∧
    (startState d0).cacheIndices = none ∧
    onClick { startState d0 with params := p } (some (Hit.mesh f k))
      = (if p.mode = Mode.tessellate then some (Request.faceselective k none none)
         else none) := by
  refine ⟨rfl, rfl, ?_⟩
  by_cases h : p.mode = Mode.tessellate <;> simp [onClick, h, startState]

/-- A state whose `showFaces` toggle is off (the user removed the surface
mesh from the scene). -/
def exNoFacesState : ClientState :=
  { exState with
      meshInScene := false
      params := { initParams with showFaces := false } }

/-- Claim C8 as stated is false on the code: with `showFaces` off, applying a
`tesselate all` response attaches the new surface mesh to the scene anyway —
`scene.add(mesh)` is unconditional, so the surface layer does not follow the
`showFaces` toggle. -/
theorem C8_counterexample :
    exNoFacesState.params.showFaces = false ∧
    (applyTesselateAllResponse exNoFacesState exSnapshot2).meshInScene = true := by
  decide

/-- Claim C8, amended: after every MeshSnapshot-shaped response the new
points layer gets the configured point size, the new wireframe is attached
iff `showEdges`, the new points layer is attached iff `showPoints` — but the
new surface mesh is always attached to the scene, regardless of
`showFaces`. -/
theorem C8_amended (s : ClientState) (d : Snapshot) :
    ((applyFaceselectiveResponse s d).points.size = s.params.pointSize ∧
     (applyFaceselectiveResponse s d).lineInScene = s.params.showEdges ∧
     (applyFaceselectiveResponse s d).pointsInScene = s.params.showPoints ∧
     (applyFaceselectiveResponse s d).meshInScene = true) ∧
    ((applyVertexselectiveResponse s d).points.size = s.params.pointSize ∧
     (applyVertexselectiveResponse s d).lineInScene = s.params.showEdges ∧
     (applyVertexselectiveResponse s d).pointsInScene = s.params.showPoints ∧
     (applyVertexselectiveResponse s d).meshInScene = true) ∧
    ((applyTesselateAllResponse s d).points.size = s.params.pointSize ∧
     (applyTesselateAllResponse s d).lineInScene = s.params.showEdges ∧
     (applyTesselateAllResponse s d).pointsInScene = s.params.showPoints ∧
     (applyTesselateAllResponse s d).meshInScene = true) ∧
    ((applyResetDomeResponse s d).points.size = s.params.pointSize ∧
     (applyResetDomeResponse s d).lineInScene = s.params.showEdges ∧
     (applyResetDomeResponse s d).pointsInScene = s.params.showPoints ∧
     (applyResetDomeResponse s d).meshInScene = true) := by
  have h1 := rebuildFromSnapshot_spec
    { s with cacheVertices := some d.vertices, cacheIndices := some d.indices } d
  have h2 := rebuildFromSnapshot_spec s d
  exact ⟨⟨h1.2.2.2.2.1, h1.2.2.2.2.2.2.1, h1.2.2.2.2.2.2.2.1, h1.2.2.2.2.2.1⟩,
    ⟨h1.2.2.2.2.1, h1.2.2.2.2.2.2.1, h1.2.2.2.2.2.2.2.1, h1.2.2.2.2.2.1⟩,
    ⟨h2.2.2.2.2.1, h2.2.2.2.2.2.2.1, h2.2.2.2.2.2.2.2.1, h2.2.2.2.2.2.1⟩,
    ⟨h2.2.2.2.2.1, h2.2.2.2.2.2.2.1, h2.2.2.2.2.2.2.2.1, h2.2.2.2.2.2.1⟩⟩

/-- Claim C9 (confirmed): a click on a point in `search` mode sends
`{index: clickedVertexIndex, distance: searchDistance}` to `/search`, and
the response's vertex list drives a highlight-only update: exactly the named
in-range slots of the current point overlay become the selected colour,
every other in-range slot keeps its colour, and the cache, the surface mesh,
the wireframe and the point positions are unchanged. -/
theorem C9_theorem (s : ClientState) (v : Nat) (L : List Int) (j : Nat)
    (hm : s.params.mode = Mode.search) :
    onClick s (some (Hit.points v)) = some (Request.search v s.params.searchDistance) ∧
    (applySearchResponse s L).cacheVertices = s.cacheVertices ∧
    (applySearchResponse s L).cacheIndices = s.cacheIndices ∧
    (applySearchResponse s L).mesh = s.mesh ∧
    (applySearchResponse s L).line = s.line ∧
    (applySearchResponse s L).points.position = s.points.position ∧
    (applySearchResponse s L).points.color.length = s.points.color.length ∧
    (j < s.points.color.length →
      (applySearchResponse s L).points.color[j]? =
        (if (j : Int) ∈ L then some red else s.points.color[j]?)) := by
  refine ⟨?_, rfl, rfl, rfl, rfl, rfl, foldl_highlight_length L s.points.color, ?_⟩
  · simp [onClick, hm]
  · intro hj
    exact foldl_highlight_getElem L s.points.color j hj

/-- Witness for `C9_theorem`: `exSearchState` (search mode, distance 3, ten
points), a click on point 1, the response `[2, 5, 9]`, and slot 5, which
ends selected. -/
theorem C9_witness :
    onClick exSearchState (some (Hit.points 1)) = some (Request.search 1 3) ∧
    (applySearchResponse exSearchState [2, 5, 9]).cacheVertices
        = exSearchState.cacheVertices ∧
    (applySearchResponse exSearchState [2, 5, 9]).points.position
        = exSearchState.points.position ∧
    (applySearchResponse exSearchState [2, 5, 9]).points.color[5]? = some red := by
  have h := C9_theorem exSearchState 1 [2, 5, 9] 5 rfl
  refine ⟨h.1, h.2.1, h.2.2.2.2.2.1, ?_⟩
  have h2 := h.2.2.2.2.2.2.2 (by decide)
  rw [h2]
  rfl

/-- Claim C10 (confirmed): `highlightPointNeighbour` performs no bounds
check — it writes the slot named by the response directly; a write at an
index outside `[0, vertexCount)` falls outside the overlay's backing typed
array and is silently dropped, leaving the whole overlay unchanged, and a
search response never alters the colour of an in-range vertex it did not
name. -/
theorem C10_theorem (s : ClientState) (L : List Int) (i : Int) (c : Color) (j : Nat) :
    ((i < 0 ∨ (s.points.color.length : Int) ≤ i) →
       highlightPointNeighbour s.points.color i c = s.points.color) ∧
    (j < s.points.color.length → ¬ ((j : Int) ∈ L) →
       (applySearchResponse s L).points.color[j]? = s.points.color[j]?) := by
  constructor
  · intro h
    unfold highlightPointNeighbour
    by_cases hneg : i < 0
    · rw [if_pos hneg]
    · rw [if_neg hneg]
      refine List.set_eq_of_length_le ?_
      omega
  · intro hj hmem
    have h := foldl_highlight_getElem L s.points.color j hj
    rw [if_neg hmem] at h
    exact h

/-- Witness for `C10_theorem`: on the ten-point overlay of `exSearchState`,
a write at index 12 is dropped, and the response `[2, 5, 9, 42]` leaves
slot 3 unchanged. -/
theorem C10_witness :
    highlightPointNeighbour exSearchState.points.color 12 red
        = exSearchState.points.color ∧
    (applySearchResponse exSearchState [2, 5, 9, 42]).points.color[3]?
        = exSearchState.points.color[3]? := by
  have h := C10_theorem exSearchState [2, 5, 9, 42] 12 red 3
  exact ⟨h.1 (by decide), h.2 (by decide) (by decide)⟩
